import Mathlib

/-
  Verification development for the Solana MCP demo server
  (stdio variant in index.ts, SSE variant embedded in README.md).

  The tool handlers are shallowly embedded as Lean functions.  External
  collaborators (Solana JSON-RPC, Anchor IDL fetch, Dune, Helius, and the
  heavyweight library primitives such as ed25519 key derivation, sha256
  discriminators and JSON rendering) are passed in as an explicit oracle
  record `Collab`; everything the repository's own code does (control flow,
  string building, byte slicing, base58 codec behaviour of bs58, error
  wrapping) is modelled executably.
-/

namespace SolanaMcp

/-- A byte string, each entry intended to be < 256. -/
abbrev Bytes := List Nat

/-- A content item of an MCP tool Result.  Every content item produced by
this repository is a text item (the nonstandard `language` annotation on two
createCPI items carries no data relevant to any claim and is dropped). -/
inductive ContentItem where
  | text (s : String)
deriving DecidableEq, Repr

/-- The Result envelope returned by a tool handler. -/
structure ToolResult where
  content : List ContentItem
deriving DecidableEq, Repr

/-- The uniform error Result built by the handlers' catch blocks:
a single text item `Error: <message>`. -/
def errResult (msg : String) : ToolResult :=
  ⟨[.text ("Error: " ++ msg)]⟩

/-- The catch block wrapped around (almost) every handler body: a thrown
failure becomes a single `Error: <message>` text item. -/
def runCatch (body : Except String (List ContentItem)) : ToolResult :=
  match body with
  | .ok c => ⟨c⟩
  | .error m => errResult m

/-! ### base58 codec (bs58 / PublicKey string form) -/

def base58Alphabet : List Char :=
  "123456789ABCDEFGHJKLMNPQRSTUVWXYZabcdefghijkmnopqrstuvwxyz".toList

/-- Digits (most significant first) of `n` in base 58, as characters;
structural recursion on a fuel bound so that evaluation reduces
definitionally (fuel ≥ the digit count makes the result fuel-independent). -/
def natToBase58Go : Nat → Nat → List Char → List Char
  | 0, _, acc => acc
  | _ + 1, 0, acc => acc
  | fuel + 1, n + 1, acc =>
      natToBase58Go fuel ((n + 1) / 58) (base58Alphabet.getD ((n + 1) % 58) '?' :: acc)

/-- Big-endian interpretation of a byte string as a natural number. -/
def bytesToNat (b : Bytes) : Nat :=
  b.foldl (fun a d => a * 256 + d) 0

/-- base58 encoding of a byte string (as performed by bs58.encode /
PublicKey.toBase58): leading zero bytes become leading `1`s, the rest is the
big-endian value written in base 58.  `2 * length + 1` bounds the digit
count since 58^(2L+1) > 256^L. -/
def base58Encode (b : Bytes) : String :=
  let zeros := (b.takeWhile (· = 0)).length
  String.mk (List.replicate zeros '1' ++ natToBase58Go (2 * b.length + 1) (bytesToNat b) [])

/-- Index of a character in the base58 alphabet. -/
def base58CharVal (c : Char) : Option Nat :=
  base58Alphabet.indexOf? c

def base58CharsToNat : List Char → Option Nat → Option Nat
  | _, none => none
  | [], some a => some a
  | c :: cs, some a =>
      match base58CharVal c with
      | none => none
      | some v => base58CharsToNat cs (some (a * 58 + v))

/-- Big-endian bytes of `n` (no leading zeros; empty for 0), fuel-bounded
structural recursion as above. -/
def natToBytesGo : Nat → Nat → Bytes → Bytes
  | 0, _, acc => acc
  | _ + 1, 0, acc => acc
  | fuel + 1, n + 1, acc =>
      natToBytesGo fuel ((n + 1) / 256) ((n + 1) % 256 :: acc)

/-- base58 decoding (bs58.decode): fails on characters outside the alphabet,
maps leading `1`s to leading zero bytes.  A value read from `m` base58
digits is below 58^m < 256^m, so `m` bounds the byte count. -/
def base58Decode (s : String) : Except String Bytes :=
  let cs := s.toList
  let ones := (cs.takeWhile (· = '1')).length
  match base58CharsToNat cs (some 0) with
  | none => .error "Non-base58 character"
  | some n => .ok (List.replicate ones 0 ++ natToBytesGo cs.length n [])

/-- `new PublicKey(<base58 string>)`: decode and require exactly 32 bytes. -/
def pubkeyFromBase58 (s : String) : Except String Bytes := do
  let b ← base58Decode s
  if b.length = 32 then pure b else .error "Invalid public key input"

/-- `new PublicKey(<buffer>)`: requires exactly 32 bytes. -/
def pubkeyFromBytes (b : Bytes) : Except String Bytes :=
  if b.length = 32 then .ok b else .error "Invalid public key input"

/-! ### number formatting -/

/-- Little-endian byte encoding of `n` padded to `len` bytes
(`BN.toArrayLike(Buffer, "le", len)` for a value that fits). -/
def leBytes (len n : Nat) : Bytes :=
  (List.range len).map fun i => n / 256 ^ i % 256

/-- Fractional digits of `r / 10^9` with trailing zeros removed. -/
def fracDigits9 (r : Nat) : String :=
  let padded := Nat.toDigits 10 (10 ^ 9 + r)   -- "1" then exactly 9 digits
  let digits := padded.drop 1
  String.mk (digits.reverse.dropWhile (· = '0')).reverse

/-- The string `${balance / LAMPORTS_PER_SOL}` of the JS template: the exact
decimal value of balance / 10^9.  This matches the JS float formatting for
every balance whose SOL value has at most 15 significant decimal digits
(which covers all inputs used in this development); for such values the
IEEE double division result prints back as the exact decimal. -/
def solString (balance : Nat) : String :=
  if balance % 10 ^ 9 = 0 then toString (balance / 10 ^ 9)
  else toString (balance / 10 ^ 9) ++ "." ++ fracDigits9 (balance % 10 ^ 9)

/-- The text built by getBalance / getMinimumBalanceForRentExemption:
`${x / LAMPORTS_PER_SOL} SOL (${x} lamports)`. -/
def lamportsText (x : Nat) : String :=
  solString x ++ " SOL (" ++ toString x ++ " lamports)"

/-! ### small string helpers -/

/-- Whether `p` occurs at the start of `l` (character lists). -/
def charsHasPre : List Char → List Char → Bool
  | [], _ => true
  | _ :: _, [] => false
  | p :: ps, c :: cs => p = c && charsHasPre ps cs

/-- Whether `needle` occurs somewhere inside `hay` (character lists). -/
def charsSub (needle : List Char) : List Char → Bool
  | [] => charsHasPre needle []
  | c :: cs => charsHasPre needle (c :: cs) || charsSub needle cs

/-- Substring test on strings (String.prototype.includes). -/
def strHas (hay needle : String) : Bool :=
  charsSub needle.toList hay.toList

/-- Whether a Result is a single text item starting with `Error: `. -/
def isErrorShaped (r : ToolResult) : Bool :=
  match r.content with
  | [.text t] => charsHasPre ("Error: ".toList) t.toList
  | _ => false

/-! ### data model -/

/-- An on-chain account as returned by connection.getAccountInfo: only the
fields the handlers read (raw data bytes and the owner public key). -/
structure AccountInfo where
  data : Bytes
  owner : Bytes
deriving DecidableEq, Repr

/-- A declared account of an IDL instruction.  `isSigner`/`isMut` are
`Option` because the handlers test `"isSigner" in acc` before reading. -/
structure IdlAccountDecl where
  name : String
  isSigner : Option Bool
  isMut : Option Bool
deriving DecidableEq, Repr

/-- A declared argument of an IDL instruction (type as its string form). -/
structure IdlArgDecl where
  name : String
  ty : String
deriving DecidableEq, Repr

structure IdlInstruction where
  name : String
  accounts : List IdlAccountDecl
  args : List IdlArgDecl
deriving DecidableEq, Repr

/-- The slice of an Anchor IDL the handlers consume: instruction list and
(optionally present) account-type names. -/
structure Idl where
  instructions : List IdlInstruction
  accounts : Option (List String)
deriving DecidableEq, Repr

/-- A JSON scalar supplied in testProgramIdl input (numbers modelled as
integers; the handlers feed them to the integer-based BN and PublicKey
constructors). -/
inductive JsVal where
  | num (n : Int)
  | str (s : String)
deriving DecidableEq, Repr

/-- One entry of inputData.accounts; `pubkey` optional since the handler
reads it with optional chaining. -/
structure InputAccount where
  name : String
  pubkey : Option String
deriving DecidableEq, Repr

/-- One entry of inputData.args. -/
structure InputArg where
  name : String
  value : Option JsVal
deriving DecidableEq, Repr

/-- Parsed testProgramIdl input JSON (inputs with the accounts/args arrays
present; other JSON shapes fail in the parse oracle). -/
structure InputData where
  accounts : List InputAccount
  args : List InputArg
deriving DecidableEq, Repr

/-- A typed instruction argument after the handler's switch on arg.type. -/
inductive JsArg where
  | bn (i : Int)
  | pk (b : Bytes)
  | raw (v : Option JsVal)
deriving DecidableEq, Repr

/-- One key of a TransactionInstruction. -/
structure KeyMeta where
  pubkey : Bytes
  isSigner : Bool
  isWritable : Bool
deriving DecidableEq, Repr

/-- A constructed TransactionInstruction. -/
structure InstrShape where
  keys : List KeyMeta
  programId : Bytes
  data : Bytes
deriving DecidableEq, Repr

/-- Result of the external createCPI helper (solanaprogram.ts, not part of
the two given source files; treated as a collaborator). -/
inductive CpiResult where
  | err (e : Option String)
  | done (cpiExample : Option String) (programIdl : Option String) (cluster : Option String)
deriving DecidableEq, Repr

/-- A fetch Response as consumed by analyzeTransaction: ok flag, status and
the (fallible) json() decode yielding the rendered transaction list. -/
structure FetchResp where
  ok : Bool
  status : Nat
  jsonResult : Except String (List String)

/-- One key of a buildTransaction input instruction. -/
structure BuildKey where
  pubkey : String
  isSigner : Bool
  isWritable : Bool
deriving DecidableEq, Repr

/-- One instruction of the buildTransaction input. -/
structure BuildIx where
  programId : String
  keys : List BuildKey
  data : String
deriving DecidableEq, Repr

/-- Schema-valid input of generateSecurityTxt (zod field order). -/
structure SecurityTxtInput where
  name : String
  project_url : String
  contacts : String
  policy : String
  preferred_languages : Option String
  encryption : Option String
  source_code : Option String
  source_release : Option String
  source_revision : Option String
  auditors : Option String
  acknowledgements : Option String
  expiry : Option String
deriving DecidableEq, Repr

/-- Environment-provided credentials, read inside the handlers. -/
structure Env where
  heliusRpcUrl : Option String
  heliusApiKey : Option String
  duneApiKey : Option String
  payerPrivateKey : Option String
deriving DecidableEq, Repr

/-- External collaborators and heavyweight library primitives, passed to the
handlers as an oracle.  Every field models one external call site; the
repository's own control flow and data marshaling around them is embedded
explicitly in the handler bodies below. -/
structure Collab where
  /-- connection.getAccountInfo -/
  getAccountInfo : Bytes → Except String (Option AccountInfo)
  /-- connection.getBalance (lamports) -/
  getBalance : Bytes → Except String Nat
  /-- connection.getMinimumBalanceForRentExemption -/
  getMinimumBalanceForRentExemption : Nat → Except String Nat
  /-- connection.getParsedTransaction, rendered by JSON.stringify for a
  found transaction (a null result is rendered by the handler itself) -/
  getParsedTransaction : String → Except String (Option String)
  /-- stdio getPriorityFee: fetch(HeliusURL) + json(), rendered result.result -/
  heliusFetch : String → String → Except String String
  /-- SSE getPriorityFee: fetch + json(); (rendered result.result when
  defined, rendered full result) -/
  heliusPriorityFeeSse : String → String → Except String (Option String × String)
  /-- anchor.Program.fetchIdl (null when no IDL account exists) -/
  fetchIdl : Bytes → Except String (Option Idl)
  /-- PublicKey.findProgramAddress (sha256-based PDA derivation):
  seed tag, seed public key bytes, deriving program id -/
  findProgramAddress : String → Bytes → Bytes → Bytes
  /-- JSON.parse of IDL account bytes -/
  parseIdlJson : Bytes → Except String Idl
  /-- JSON.stringify(idl, null, 2) -/
  stringifyIdl : Idl → String
  /-- JSON.stringify(accountInfo, null, 2) -/
  stringifyAccount : Option AccountInfo → String
  /-- BorshAccountsCoder.accountDiscriminator (sha256) -/
  accountDiscriminator : String → Bytes
  /-- JSON.stringify of the memcmp filter list built from the encoded
  discriminators -/
  stringifyFilters : List String → String
  /-- JSON.stringify of the account-type name list -/
  stringifyNames : List String → String
  /-- JSON.parse(inputJson) for testProgramIdl -/
  parseInput : String → Except String InputData
  /-- Keypair.fromSecretKey (ed25519): secret bytes to public key -/
  keypairFromSecret : Bytes → Except String Bytes
  /-- program.coder.instruction.encode(name, []) -/
  encodeInstruction : String → Bytes
  /-- provider.connection.simulateTransaction on the single-instruction
  transaction with the given fee payer; rendered simulation JSON -/
  simulateTransaction : InstrShape → Bytes → Except String String
  /-- fetch of verify.osec.io/status (checkupProgram): response token -/
  osecFetch : String → Except String String
  /-- response.json() on the osec response, rendered -/
  respJson : String → Except String String
  /-- checkProgramDeployment inner security check: fetch + json,
  (data.is_verified, rendered data) -/
  osecStatus : String → Except String (Bool × String)
  /-- PublicKey.isOnCurve -/
  isOnCurve : Bytes → Bool
  /-- connection.getSignaturesForAddress (limit 10): blockTime per entry -/
  getSignaturesForAddress : Bytes → Except String (List (Option Nat))
  /-- new Date(t * 1000).toISOString() -/
  isoDate : Nat → String
  /-- the external createCPI helper from solanaprogram.ts -/
  createCPI : String → String → Except String CpiResult
  /-- the three Dune runQuery calls under Promise.all: rendered rows of
  each result when present -/
  duneQueries : String → String → Nat → Except String (Option String × Option String × Option String)
  /-- connection.getLatestBlockhash().blockhash -/
  getLatestBlockhash : Except String String
  /-- transaction.partialSign(payer) + serialize: instructions, payer
  secret, blockhash to (base64 serialization, rendered transaction JSON) -/
  signAndSerialize : List InstrShape → Bytes → String → Except String (String × String)
  /-- Transaction.from(base64): token for the decoded transaction -/
  txFromBase64 : String → Except String String
  /-- sendAndConfirmRawTransaction: transaction token, skipPreflight -/
  sendAndConfirmRaw : String → Bool → Except String String
  /-- analyzeTransaction Helius fetch: api key, signature -/
  heliusTxFetch : String → String → Except String FetchResp

/-! ### testProgramIdl marshaling helpers (straight from the handler) -/

/-- TypeError message of `(args[0] as BN).toArrayLike` when `args[0]` is
undefined — the args array is empty, or the first declared argument has the
default (passthrough) type and no supplied value.  The exact wording
belongs to the JS runtime, not the repository. -/
def arg0UndefinedMessage : String :=
  "Cannot read properties of undefined (reading \x27toArrayLike\x27)"

/-- TypeError message when args[0] is a defined value without a toArrayLike
method (a PublicKey object, a string, a number). -/
def toArrayLikeMissingMessage : String :=
  "args[0].toArrayLike is not a function"

/-- TypeError message of `new PublicKey(undefined)` (web3.js probes
`value._bn` on its non-string argument). -/
def pubkeyUndefinedMessage : String :=
  "Cannot read properties of undefined"

/-- `new BN(value)` for a u64/i64 argument value.  bn.js runs
`this._init(number || 0, ...)`, so a missing (undefined) value — and the
empty string, also falsy — silently coerces to BN(0); a non-empty
non-numeric string fails bn.js's "Invalid character" assertion. -/
def bnOfVal : Option JsVal → Except String Int
  | none => .ok 0
  | some (.num n) => .ok n
  | some (.str s) =>
      if s = "" then .ok 0
      else
        match s.toInt? with
        | some n => .ok n
        | none => .error "Invalid character"

/-- Big-endian byte encoding padded to `len` bytes. -/
def beBytes (len n : Nat) : Bytes :=
  (leBytes len n).reverse

/-- `new PublicKey(value)` for a publicKey-typed argument value: strings go
through base58, numbers through BN.toBuffer(be, 32). -/
def pkOfVal : Option JsVal → Except String Bytes
  | none => .error pubkeyUndefinedMessage
  | some (.str s) => pubkeyFromBase58 s
  | some (.num n) =>
      if n.natAbs < 256 ^ 32 then .ok (beBytes 32 n.natAbs)
      else .error "byte array longer than desired length"

/-- `BN.toArrayLike(Buffer, "le", 8)`: magnitude bytes little-endian,
asserting the value fits in 8 bytes. -/
def toArrayLikeLE8 (i : Int) : Except String Bytes :=
  if i.natAbs < 2 ^ 64 then .ok (leBytes 8 i.natAbs)
  else .error "byte array longer than desired length"

/-- One key of the instruction: look the declared account up in the input
by name; a missing entry (or missing/empty pubkey) falls back to the payer
public key via `accountInfo?.pubkey || payer.publicKey`. -/
def resolveKey (payerPub : Bytes) (inputAccounts : List InputAccount)
    (acc : IdlAccountDecl) : Except String KeyMeta := do
  let found := inputAccounts.find? fun a => a.name = acc.name
  let pk ← match found.bind (fun a => a.pubkey) with
    | some p => if p = "" then pure payerPub else pubkeyFromBase58 p
    | none => pure payerPub
  pure ⟨pk, acc.isSigner.getD false, acc.isMut.getD false⟩

def resolveKeys (payerPub : Bytes) (inputAccounts : List InputAccount)
    (accs : List IdlAccountDecl) : Except String (List KeyMeta) :=
  accs.mapM (resolveKey payerPub inputAccounts)

/-- One typed argument: look the declared arg up in the input by name and
apply the fixed type table (u64/i64 to BN, publicKey, default passthrough). -/
def resolveArg (inputArgs : List InputArg) (arg : IdlArgDecl) : Except String JsArg :=
  let value := (inputArgs.find? fun a => a.name = arg.name).bind fun a => a.value
  match arg.ty with
  | "u64" => JsArg.bn <$> bnOfVal value
  | "i64" => JsArg.bn <$> bnOfVal value
  | "publicKey" => JsArg.pk <$> pkOfVal value
  | _ => pure (JsArg.raw value)

def resolveArgs (inputArgs : List InputArg) (argDecls : List IdlArgDecl) :
    Except String (List JsArg) :=
  argDecls.mapM (resolveArg inputArgs)

/-- `(args[0] as BN).toArrayLike(Buffer, "le", 8)`: args[0] undefined (no
args, or a passthrough-typed argument with no supplied value) is a property
access on undefined; a defined non-BN args[0] lacks the method. -/
def firstArgLeBytes : List JsArg → Except String Bytes
  | [] => .error arg0UndefinedMessage
  | JsArg.bn i :: _ => toArrayLikeLE8 i
  | JsArg.raw none :: _ => .error arg0UndefinedMessage
  | _ :: _ => .error toArrayLikeMissingMessage

/-! ### handler bodies (stdio variant, index.ts)

Each body is the code inside the handler's try block; `dispatchStdio` wraps
it in `runCatch`, the catch block.  Best-effort logToFile calls are pure
side effects on an append-only log never read back, and are omitted. -/

def getAccountInfoBody (c : Collab) (publicKey : String) :
    Except String (List ContentItem) := do
  let pk ← pubkeyFromBase58 publicKey
  let accountInfo ← c.getAccountInfo pk
  pure [.text (c.stringifyAccount accountInfo)]

def getBalanceBody (c : Collab) (publicKey : String) :
    Except String (List ContentItem) := do
  let pk ← pubkeyFromBase58 publicKey
  let balance ← c.getBalance pk
  pure [.text (lamportsText balance)]

def getMinimumBalanceBody (c : Collab) (dataSize : Nat) :
    Except String (List ContentItem) := do
  let minBalance ← c.getMinimumBalanceForRentExemption dataSize
  pure [.text (lamportsText minBalance)]

def getTransactionBody (c : Collab) (signature : String) :
    Except String (List ContentItem) := do
  let transaction ← c.getParsedTransaction signature
  pure [.text (match transaction with | some j => j | none => "null")]

def getPriorityFeeBody (env : Env) (c : Collab) (serealizedTransaction : String) :
    Except String (List ContentItem) := do
  match env.heliusRpcUrl with
  | none => .error "HELIUS_RPC_URL environment variable is not set"
  | some url => do
      let priorityFee ← c.heliusFetch url serealizedTransaction
      pure [.text priorityFee]

def securityTxtEntries (i : SecurityTxtInput) : List (String × Option String) :=
  [("name", some i.name), ("project_url", some i.project_url),
   ("contacts", some i.contacts), ("policy", some i.policy),
   ("preferred_languages", i.preferred_languages), ("encryption", i.encryption),
   ("source_code", i.source_code), ("source_release", i.source_release),
   ("source_revision", i.source_revision), ("auditors", i.auditors),
   ("acknowledgements", i.acknowledgements), ("expiry", i.expiry)]

def securityTxtString (i : SecurityTxtInput) : String :=
  let content := String.join
    ((securityTxtEntries i).filterMap fun kv =>
      kv.2.map fun v => kv.1 ++ "\x00" ++ v ++ "\x00")
  "\"=======BEGIN SECURITY.TXT V1=======\\0" ++ content ++
    "=======END SECURITY.TXT V1=======\\0\""

def securityTxtMacroString (i : SecurityTxtInput) : String :=
  "#[macro_export]\n  macro_rules! security_txt \x7b\n      () => \x7b\n          " ++
  "#[cfg_attr(target_arch = \"bpf\", link_section = \".security.txt\")]\n          " ++
  "#[allow(dead_code)]\n          #[no_mangle]\n          " ++
  "pub static security_txt: &str = " ++ securityTxtString i ++
  ";\n      \x7d;\n  \x7d\n  \n  security_txt!();"

/-- generateSecurityTxt is the one handler with no try/catch; its body is
pure string building and cannot raise. -/
def generateSecurityTxtContent (i : SecurityTxtInput) : List ContentItem :=
  [.text "Generated security.txt content:",
   .text (securityTxtString i),
   .text "Generated macro:",
   .text (securityTxtMacroString i)]

def shankRegistryId : String := "SHANKxjhDKxhCjgSEhUvZy5uW8Xb4VuKLyAXJVZbDGr"

def getProgramIdlBody (c : Collab) (programId : String) :
    Except String (List ContentItem) := do
  let pk ← pubkeyFromBase58 programId
  -- Method 1: Anchor fetchIdl inside its own try; a rejection is only
  -- logged and falls through, as does a null IDL
  match c.fetchIdl pk with
  | .ok (some idl) => return [.text (c.stringifyIdl idl)]
  | _ => pure ()
  -- Method 2: manual fetch of the derived anchor:idl account
  let idlAddress := c.findProgramAddress "anchor:idl" pk pk
  let idlAccount ← c.getAccountInfo idlAddress
  match idlAccount with
  | some acct => do
      let idl ← c.parseIdlJson (acct.data.drop 8)  -- skip discriminator
      return [.text (c.stringifyIdl idl)]
  | none => pure ()
  -- Method 3: Shank IDL registry account
  let shankProgram ← pubkeyFromBase58 shankRegistryId
  let shankAddress := c.findProgramAddress "shank:idl" pk shankProgram
  let shankAccount ← c.getAccountInfo shankAddress
  match shankAccount with
  | some acct => do
      let idl ← c.parseIdlJson acct.data
      pure [.text (c.stringifyIdl idl)]
  | none =>
      pure [.text "No IDL found for the given program ID."]

def createGPAFiltersBody (c : Collab) (programId : String) :
    Except String (List ContentItem) := do
  let pk ← pubkeyFromBase58 programId
  let idl? ← c.fetchIdl pk
  let idl ← match idl? with
    | none => Except.error "IDL not found for the given program ID"
    | some idl => pure idl
  let accountTypes := idl.accounts.getD []
  let filters := accountTypes.map fun n => base58Encode (c.accountDiscriminator n)
  pure [.text "GPA Filters:", .text (c.stringifyFilters filters),
        .text "\nAccount Types:", .text (c.stringifyNames accountTypes)]

/-- Shared testProgramIdl body after the PAYER_PRIVATE_KEY check (identical
in the two variants). -/
def testProgramIdlRest (c : Collab) (payerPrivateKey : String)
    (programId inputJson instructionName : String) :
    Except String (List ContentItem) := do
  let secretKey ← base58Decode payerPrivateKey
  let payerPub ← c.keypairFromSecret secretKey
  let programPk ← pubkeyFromBase58 programId
  let idl? ← c.fetchIdl programPk
  match idl? with
  | none => pure [.text "No IDL found for the given program ID."]
  | some idl => do
    let inputData ← c.parseInput inputJson
    match idl.instructions.find? (fun ix => ix.name = instructionName) with
    | none =>
        pure [.text ("Instruction \x27" ++ instructionName ++ "\x27 not found in IDL.")]
    | some ix => do
        let keys ← resolveKeys payerPub inputData.accounts ix.accounts
        let args ← resolveArgs inputData.args ix.args
        let instructionDiscriminator := (c.encodeInstruction instructionName).take 8
        let expirationSlotBuffer ← firstArgLeBytes args
        let data := instructionDiscriminator ++ expirationSlotBuffer
        let sim ← c.simulateTransaction ⟨keys, programPk, data⟩ payerPub
        pure [.text "Simulation result:", .text sim]

def testProgramIdlStdioBody (env : Env) (c : Collab)
    (programId inputJson instructionName : String) :
    Except String (List ContentItem) := do
  match env.payerPrivateKey with
  | none => .error "PAYER_PRIVATE_KEY not found in environment variables"
  | some k => testProgramIdlRest c k programId inputJson instructionName

def lookupProgramAuthStdioBody (c : Collab) (programId : String) :
    Except String (List ContentItem) := do
  let pk ← pubkeyFromBase58 programId
  let programInfo? ← c.getAccountInfo pk
  let programInfo ← match programInfo? with
    | none => Except.error "Program not found"
    | some i => pure i
  let programDataAddress ← pubkeyFromBytes ((programInfo.data.drop 4).take 32)
  let programData? ← c.getAccountInfo programDataAddress
  let programData ← match programData? with
    | none => Except.error "Program data not found"
    | some i => pure i
  let programAuthority ← pubkeyFromBytes (programData.data.take 32)
  pure [.text ("Program Authority: " ++ base58Encode programAuthority)]

def bpfLoaderUpgradeableId : String := "BPFLoaderUpgradeab1e11111111111111111111111"

def checkupProgramBody (c : Collab) (programId : String) :
    Except String (List ContentItem) := do
  let resp ← c.osecFetch programId
  let pk ← pubkeyFromBase58 programId
  let programInfo? ← c.getAccountInfo pk
  let programInfo ← match programInfo? with
    | none => Except.error "Program not found"
    | some i => pure i
  let upgradeAuthorityPubkey ← pubkeyFromBytes ((programInfo.data.drop 4).take 32)
  let upgradeAuthorityInfo? ← c.getAccountInfo upgradeAuthorityPubkey
  let upgradeAuthorityInfo ← match upgradeAuthorityInfo? with
    | none => Except.error "Upgrade authority account not found"
    | some i => pure i
  let bpfLoader ← pubkeyFromBase58 bpfLoaderUpgradeableId
  let isVerified := upgradeAuthorityInfo.owner = bpfLoader
  let dataJson ← c.respJson resp
  pure [.text ("Verified Build: " ++ (if isVerified then "true" else "false")),
        .text ("Security.txt: " ++ dataJson)]

def sensitiveKeywords : List String := ["key", "secret", "password", "private"]

def sensitiveArgLines (idl : Idl) : List String :=
  let fields := idl.instructions.flatMap fun ix =>
    ix.args.filter fun arg =>
      sensitiveKeywords.any fun kw => strHas arg.name.toLower kw
  if fields.length > 0 then
    "Warning: Potentially sensitive data in instruction arguments:" ::
      fields.map fun f => "  - " ++ f.name ++ " (" ++ f.ty ++ ")"
  else ["No obvious sensitive data found in instruction arguments"]

def checkProgramDeploymentBody (c : Collab) (programId : String) :
    Except String (List ContentItem) := do
  let pk ← pubkeyFromBase58 programId
  let programInfo? ← c.getAccountInfo pk
  match programInfo? with
  | none => pure [.text ("Error: Program with ID " ++ programId ++ " not found.")]
  | some programInfo => do
    let line1 := "Program found: " ++ programId
    -- fetchIdl under its own try: a resolved null still reports Found
    let (idl?, idlLine) :=
      match c.fetchIdl pk with
      | .ok i => (i, "IDL: Found")
      | .error _ => ((none : Option Idl), "IDL: Not found or not accessible")
    let programDataAddress ← pubkeyFromBytes ((programInfo.data.drop 4).take 32)
    let programData? ← c.getAccountInfo programDataAddress
    match programData? with
    | none => pure [.text ("Error: Program data not found for " ++ programId ++ ".")]
    | some programData => do
      let upgradeAuthorityAddress ← pubkeyFromBytes ((programData.data.drop 13).take 32)
      -- the fetched info only feeds an unused isVerified binding
      let _ ← c.getAccountInfo upgradeAuthorityAddress
      let authLine := "upgradeAuthorityPubkey: " ++ base58Encode upgradeAuthorityAddress
      let multisigLine :=
        "Multisig: " ++ (if ¬ c.isOnCurve upgradeAuthorityAddress then "Yes" else "No")
      let secLine :=
        match c.osecStatus programId with
        | .ok (true, rendered) => "Security info: " ++ rendered
        | .ok (false, _) => "Security info: Not found on verify.osec.io"
        | .error _ => "Security info: Error checking verify.osec.io"
      let sensLines := match idl? with
        | some idl => sensitiveArgLines idl
        | none => []
      let sizeLine := "Program size: " ++ toString programInfo.data.length ++ " bytes"
      let signatures ← c.getSignaturesForAddress pk
      let latestActivity :=
        match signatures.head? with
        | some (some t) => if t = 0 then "No recent activity" else c.isoDate t
        | _ => "No recent activity"
      let report := [line1, idlLine, authLine, multisigLine, secLine] ++ sensLines ++
        [sizeLine, "Latest activity: " ++ latestActivity]
      pure [.text "Program Deployment Check Report:",
            .text (String.intercalate "\n" report)]

/-- JS `x || default` on an optional string. -/
def jsOrDefault (v : Option String) (d : String) : String :=
  match v with
  | some s => if s = "" then d else s
  | none => d

def createCPIBody (c : Collab) (programId instructionName : String) :
    Except String (List ContentItem) := do
  let result ← c.createCPI programId instructionName
  match result with
  | .err e => pure [.text (jsOrDefault e "Unknown error")]
  | .done cpiExample programIdl cluster =>
      pure [.text "CPI Example:",
            .text (jsOrDefault cpiExample "// No example generated"),
            .text "Program IDL:",
            .text (programIdl.getD "\x7b\x7d"),
            .text ("Cluster: " ++ jsOrDefault cluster "unknown")]

def getDuneSolanaDataBody (env : Env) (c : Collab) (programId : String) (days : Nat) :
    Except String (List ContentItem) := do
  match env.duneApiKey with
  | none => .error "DUNE_API_KEY is not set in the environment variables"
  | some key => do
    let rows ← c.duneQueries key programId days
    match rows with
    | (some top, some calls, some cpi) =>
        pure [.text ("Dune Analytics data for Solana program " ++ programId ++
                " over the last " ++ toString days ++ " days:"),
              .text "Top 1000 Signers:", .text top,
              .text "Program Calls:", .text calls,
              .text "CPI Program Calls:", .text cpi]
    | _ => pure [.text "No data returned from Dune Analytics."]

/-! ### stdio registry and dispatch -/

/-- A schema-valid call to one of the stdio variant's registered tools. -/
inductive Call where
  | getAccountInfo (publicKey : String)
  | getBalance (publicKey : String)
  | getMinimumBalanceForRentExemption (dataSize : Nat)
  | getTransaction (signature : String)
  | getPriorityFee (serealizedTransaction : String)
  | generateSecurityTxt (input : SecurityTxtInput)
  | getProgramIdl (programId : String)
  | createGPAFilters (programId : String)
  | testProgramIdl (programId inputJson instructionName : String)
  | lookupProgramAuth (programId : String)
  | checkupProgram (programId : String)
  | checkProgramDeployment (programId : String)
  | createCPI (programId instructionName : String)
  | getDuneSolanaData (programId : String) (days : Nat)

/-- The try-block body of each stdio tool handler. -/
def stdioBody (env : Env) (c : Collab) : Call → Except String (List ContentItem)
  | .getAccountInfo pk => getAccountInfoBody c pk
  | .getBalance pk => getBalanceBody c pk
  | .getMinimumBalanceForRentExemption n => getMinimumBalanceBody c n
  | .getTransaction sig => getTransactionBody c sig
  | .getPriorityFee tx => getPriorityFeeBody env c tx
  | .generateSecurityTxt i => .ok (generateSecurityTxtContent i)
  | .getProgramIdl pid => getProgramIdlBody c pid
  | .createGPAFilters pid => createGPAFiltersBody c pid
  | .testProgramIdl pid ij iname => testProgramIdlStdioBody env c pid ij iname
  | .lookupProgramAuth pid => lookupProgramAuthStdioBody c pid
  | .checkupProgram pid => checkupProgramBody c pid
  | .checkProgramDeployment pid => checkProgramDeploymentBody c pid
  | .createCPI pid iname => createCPIBody c pid iname
  | .getDuneSolanaData pid days => getDuneSolanaDataBody env c pid days

/-- stdio dispatch of a schema-valid call: the handler body inside the
uniform catch block. -/
def dispatchStdio (env : Env) (c : Collab) (call : Call) : ToolResult :=
  runCatch (stdioBody env c call)

/-! ### handler bodies specific to the SSE variant (README.md) -/

def getPriorityFeeSseBody (env : Env) (c : Collab) (serializedTransaction : String) :
    Except String (List ContentItem) := do
  match env.heliusApiKey with
  | none => pure [.text "Error: HELIUS_API_KEY environment variable is not set"]
  | some key => do
    let (priorityFee?, fullResult) ← c.heliusPriorityFeeSse key serializedTransaction
    match priorityFee? with
    | some fee => pure [.text fee]
    | none => pure [.text ("No priority fee data available" ++ fullResult)]

/-- The SSE testProgramIdl replaces the missing-payer throw with an early
return of the no-IDL message. -/
def testProgramIdlSseBody (env : Env) (c : Collab)
    (programId inputJson instructionName : String) :
    Except String (List ContentItem) := do
  match env.payerPrivateKey with
  | none => pure [.text "No IDL found for the given program ID."]
  | some k => testProgramIdlRest c k programId inputJson instructionName

def lookupProgramAuthSseBody (c : Collab) (programId : String) :
    Except String (List ContentItem) := do
  let pk ← pubkeyFromBase58 programId
  let programInfo? ← c.getAccountInfo pk
  match programInfo? with
  | none => pure [.text ("Error: Program with ID " ++ programId ++ " not found.")]
  | some programInfo => do
    let programDataAddress ← pubkeyFromBytes ((programInfo.data.drop 4).take 32)
    let programData? ← c.getAccountInfo programDataAddress
    match programData? with
    | none => pure [.text ("Error: Program data not found for " ++ programId ++ ".")]
    | some programData => do
      let upgradeAuthorityAddress ← pubkeyFromBytes ((programData.data.drop 13).take 32)
      pure [.text ("Program Authority: " ++ base58Encode upgradeAuthorityAddress)]

def buildKeyResolve (k : BuildKey) : Except String KeyMeta := do
  let pk ← pubkeyFromBase58 k.pubkey
  pure ⟨pk, k.isSigner, k.isWritable⟩

def buildIxResolve (ix : BuildIx) : Except String InstrShape := do
  let keys ← ix.keys.mapM buildKeyResolve
  let pid ← pubkeyFromBase58 ix.programId
  let data ← base58Decode ix.data
  pure ⟨keys, pid, data⟩

def buildTransactionBody (env : Env) (c : Collab)
    (instructions : List BuildIx) (recentBlockhash : Option String) :
    Except String (List ContentItem) := do
  match env.payerPrivateKey with
  | none => .error "PAYER_PRIVATE_KEY not found in environment variables"
  | some payerKey => do
    let secret ← base58Decode payerKey
    let _payerPub ← c.keypairFromSecret secret
    let instrs ← instructions.mapM buildIxResolve
    let blockhash ← match recentBlockhash with
      | some b => pure b
      | none => c.getLatestBlockhash
    let (serializedTransaction, rendered) ← c.signAndSerialize instrs secret blockhash
    pure [.text "Serialized Transaction:", .text serializedTransaction,
          .text "\nTransaction Details:", .text rendered]

def submitTransactionBody (c : Collab) (serializedTransaction : String)
    (skipPreflight : Bool) : Except String (List ContentItem) := do
  let transaction ← c.txFromBase64 serializedTransaction
  let signature ← c.sendAndConfirmRaw transaction skipPreflight
  pure [.text "Transaction submitted successfully!",
        .text ("Signature: " ++ signature),
        .text ("Solana Explorer URL: https://explorer.solana.com/tx/" ++ signature)]

def analyzeTransactionBody (env : Env) (c : Collab) (signature : String) :
    Except String (List ContentItem) := do
  match env.heliusApiKey with
  | none => .error "HELIUS_API_KEY not found in environment variables"
  | some key => do
    let resp ← c.heliusTxFetch key signature
    if resp.ok then do
      let txs ← resp.jsonResult
      match txs.head? with
      | none => pure [.text "No transaction data found."]
      | some tx => pure [.text "Transaction Analysis:", .text tx]
    else
      .error ("HTTP error! status: " ++ toString resp.status)

/-! ### SSE registry and dispatch -/

/-- A schema-valid call to one of the SSE variant's registered tools. -/
inductive CallSse where
  | getAccountInfo (publicKey : String)
  | getBalance (publicKey : String)
  | getMinimumBalanceForRentExemption (dataSize : Nat)
  | getTransaction (signature : String)
  | getPriorityFee (serializedTransaction : String)
  | generateSecurityTxt (input : SecurityTxtInput)
  | getProgramIdl (programId : String)
  | createGPAFilters (programId : String)
  | testProgramIdl (programId inputJson instructionName : String)
  | lookupProgramAuth (programId : String)
  | checkupProgram (programId : String)
  | checkProgramDeployment (programId : String)
  | createCPI (programId instructionName : String)
  | getDuneSolanaData (programId : String) (days : Nat)
  | buildTransaction (instructions : List BuildIx) (recentBlockhash : Option String)
  | submitTransaction (serializedTransaction : String) (skipPreflight : Bool)
  | analyzeTransaction (signature : String)

/-- The try-block body of each SSE tool handler. -/
def sseBody (env : Env) (c : Collab) : CallSse → Except String (List ContentItem)
  | .getAccountInfo pk => getAccountInfoBody c pk
  | .getBalance pk => getBalanceBody c pk
  | .getMinimumBalanceForRentExemption n => getMinimumBalanceBody c n
  | .getTransaction sig => getTransactionBody c sig
  | .getPriorityFee tx => getPriorityFeeSseBody env c tx
  | .generateSecurityTxt i => .ok (generateSecurityTxtContent i)
  | .getProgramIdl pid => getProgramIdlBody c pid
  | .createGPAFilters pid => createGPAFiltersBody c pid
  | .testProgramIdl pid ij iname => testProgramIdlSseBody env c pid ij iname
  | .lookupProgramAuth pid => lookupProgramAuthSseBody c pid
  | .checkupProgram pid => checkupProgramBody c pid
  | .checkProgramDeployment pid => checkProgramDeploymentBody c pid
  | .createCPI pid iname => createCPIBody c pid iname
  | .getDuneSolanaData pid days => getDuneSolanaDataBody env c pid days
  | .buildTransaction ixs bh => buildTransactionBody env c ixs bh
  | .submitTransaction tx sp => submitTransactionBody c tx sp
  | .analyzeTransaction sig => analyzeTransactionBody env c sig

/-- The usage help appended by the SSE testProgramIdl catch block
(transcribed from the template literal, braces written \x7b/\x7d). -/
def expectedInputJsonHelp : String :=
  "\n      The input JSON should be a string containing a JSON object with two main properties:\n" ++
  "      \n" ++
  "      1. \"accounts\": An array of account objects, each containing:\n" ++
  "         - \"name\": The name of the account as specified in the instruction\n" ++
  "         - \"pubkey\": The public key of the account as a base58 encoded string\n" ++
  "      \n" ++
  "      2. \"args\": An array of argument objects, each containing:\n" ++
  "         - \"name\": The name of the argument as specified in the instruction\n" ++
  "         - \"value\": The value of the argument\n" ++
  "         - \"type\" (optional): The type of the argument (e.g., \"u64\", \"i64\", \"publicKey\")\n" ++
  "      \n" ++
  "      Example structure:\n" ++
  "      \x7b\n" ++
  "        \"accounts\": [\n" ++
  "          \x7b \"name\": \"accountName1\", \"pubkey\": \"base58EncodedPublicKey1\" \x7d,\n" ++
  "          \x7b \"name\": \"accountName2\", \"pubkey\": \"base58EncodedPublicKey2\" \x7d\n" ++
  "        ],\n" ++
  "        \"args\": [\n" ++
  "          \x7b \"name\": \"argName1\", \"value\": \"argValue1\", \"type\": \"argType1\" \x7d,\n" ++
  "          \x7b \"name\": \"argName2\", \"value\": \"argValue2\", \"type\": \"argType2\" \x7d\n" ++
  "        ]\n" ++
  "      \x7d\n" ++
  "      \n" ++
  "      Ensure that the account names and argument names match those specified in the instruction\x27s IDL.\n" ++
  "          "

/-- SSE dispatch: every handler uses the uniform catch except
testProgramIdl, whose catch appends the expected-input usage help. -/
def dispatchSse (env : Env) (c : Collab) (call : CallSse) : ToolResult :=
  match call with
  | .testProgramIdl pid ij iname =>
      match testProgramIdlSseBody env c pid ij iname with
      | .ok content => ⟨content⟩
      | .error m =>
          ⟨[.text ("Error: " ++ m),
            .text "Expected input JSON structure:",
            .text expectedInputJsonHelp]⟩
  | _ => runCatch (sseBody env c call)

/-! ### SSE transport state (README.md lines 327-347)

`transport` is the process-wide reference to the single open event-stream
connection; `delivered` records which messages were handed to which
connection via transport.handlePostMessage. -/

structure SseState where
  transport : Option Nat
  delivered : List (Nat × String)
deriving DecidableEq, Repr

/-- State at server start: no GET /sse has arrived yet. -/
def initialSseState : SseState := ⟨none, []⟩

/-- GET /sse: a new SSEServerTransport replaces the current reference. -/
def sseGet (s : SseState) (connId : Nat) : SseState :=
  { s with transport := some connId }

/-- Outcome of POST /messages: either routed to the open stream, or an
HTTP error status with a body. -/
inductive PostOutcome where
  | routed (connId : Nat)
  | httpError (status : Nat) (body : String)
deriving DecidableEq, Repr

/-- POST /messages: routed to the single open transport if one exists,
otherwise answered with HTTP 500 and dropped. -/
def postMessages (s : SseState) (msg : String) : PostOutcome × SseState :=
  match s.transport with
  | some t => (.routed t, { s with delivered := s.delivered ++ [(t, msg)] })
  | none => (.httpError 500 "SSE transport not initialized", s)

/-- An observable transport event after the POST under scrutiny. -/
inductive SseEvent where
  | get (connId : Nat)
  | post (msg : String)

def sseStep (s : SseState) : SseEvent → SseState
  | .get connId => sseGet s connId
  | .post msg => (postMessages s msg).2

def sseRun (s : SseState) : List SseEvent → SseState
  | [] => s
  | e :: es => sseRun (sseStep s e) es

/-! ### prompt registry -/

structure PromptMessage where
  role : String
  text : String
deriving DecidableEq, Repr

/-- A call to a registered prompt (identical in both variants). -/
inductive PromptCall where
  | calculateStorageDeposit (bytes : String)
  | minimumAmountOfSolForStorage
  | whyDidMyTransactionFail (signature : String)
  | howMuchDidThisTransactionCost (signature : String)
  | whatHappenedInTransaction (signature : String)
deriving DecidableEq, Repr

def renderPrompt : PromptCall → List PromptMessage
  | .calculateStorageDeposit bytes =>
      [⟨"user", "Calculate the SOL amount needed to store " ++ bytes ++
        " bytes of data on Solana using getMinimumBalanceForRentExemption."⟩]
  | .minimumAmountOfSolForStorage =>
      [⟨"user", "Calculate the amount of SOL needed to store 0 bytes of data on Solana using getMinimumBalanceForRentExemption & present it to the user as the minimum cost for storing any data on Solana."⟩]
  | .whyDidMyTransactionFail signature =>
      [⟨"user", "Look up the transaction with signature " ++ signature ++
        " and inspect its logs to figure out why it failed."⟩]
  | .howMuchDidThisTransactionCost signature =>
      [⟨"user", "Calculate the network fee for the transaction with signature " ++
        signature ++
        " by fetching it and inspecting the \x27fee\x27 field in \x27meta\x27. Base fee is 0.000005 sol per signature (also provided as array at the end). So priority fee is fee - (numSignatures * 0.000005). Please provide the base fee and the priority fee."⟩]
  | .whatHappenedInTransaction signature =>
      [⟨"user", "Look up the transaction with signature " ++ signature ++
        " and inspect its logs & instructions to figure out what happened."⟩]

/-- The registered prompts that take a signature parameter. -/
def signaturePrompts (signature : String) : List PromptCall :=
  [.whyDidMyTransactionFail signature,
   .howMuchDidThisTransactionCost signature,
   .whatHappenedInTransaction signature]

/-! ### concrete instances used to evaluate the theorems -/

def zeros32 : Bytes := List.replicate 32 0

/-- `"111...1"` (32 ones): base58 of the 32-zero-byte public key. -/
def pk32Str : String := String.mk (List.replicate 32 '1')

/-- base58 of a 64-zero-byte secret key. -/
def payerSecret58 : String := String.mk (List.replicate 64 '1')

def envNone : Env := ⟨none, none, none, none⟩

def envAll : Env :=
  ⟨some "https://helius.example", some "helius-key", some "dune-key", some payerSecret58⟩

/-- A deterministic baseline collaborator. -/
def c0 : Collab where
  getAccountInfo := fun _ => .ok none
  getBalance := fun _ => .ok 0
  getMinimumBalanceForRentExemption := fun _ => .ok 0
  getParsedTransaction := fun _ => .ok none
  heliusFetch := fun _ _ => .ok ""
  heliusPriorityFeeSse := fun _ _ => .ok (none, "")
  fetchIdl := fun _ => .ok none
  findProgramAddress := fun _ _ _ => zeros32
  parseIdlJson := fun _ => .error "Unexpected token"
  stringifyIdl := fun _ => "IDL-JSON"
  stringifyAccount := fun _ => "null"
  accountDiscriminator := fun _ => List.replicate 8 0
  stringifyFilters := fun _ => "[]"
  stringifyNames := fun _ => "[]"
  parseInput := fun _ => .ok ⟨[], []⟩
  keypairFromSecret := fun b => .ok (b.drop 32)
  encodeInstruction := fun _ => [1, 2, 3, 4, 5, 6, 7, 8]
  simulateTransaction := fun _ _ => .ok "SIM"
  osecFetch := fun _ => .ok "resp"
  respJson := fun _ => .ok "null"
  osecStatus := fun _ => .ok (false, "")
  isOnCurve := fun _ => true
  getSignaturesForAddress := fun _ => .ok []
  isoDate := fun _ => "1970-01-01T00:00:00.000Z"
  createCPI := fun _ _ => .ok (.err none)
  duneQueries := fun _ _ _ => .ok (none, none, none)
  getLatestBlockhash := .ok "BLOCKHASH"
  signAndSerialize := fun _ _ _ => .ok ("", "")
  txFromBase64 := fun _ => .ok "tx"
  sendAndConfirmRaw := fun _ _ => .ok "sig"
  heliusTxFetch := fun _ _ => .ok ⟨true, 200, .ok []⟩

/-- A collaborator answering every balance query with 1 SOL. -/
def c2Collab : Collab := { c0 with getBalance := fun _ => .ok 1000000000 }

/-- A collaborator whose transaction lookup rejects with "not found". -/
def c3Collab : Collab := { c0 with getParsedTransaction := fun _ => .error "not found" }

/-- Environment whose PAYER_PRIVATE_KEY is set but is not valid base58, so
bs58.decode raises inside the handler. -/
def envBadPayer : Env := ⟨none, none, none, some "0"⟩

/-- Whether a Result has the shape of a successful testProgramIdl
simulation: exactly `["Simulation result:", <rendered simulation>]`. -/
def isSimResult (r : ToolResult) : Bool :=
  match r.content with
  | [.text h, .text _] => h = "Simulation result:"
  | _ => false

/-- The decoded Shank registry public key used by getProgramIdl Method 3. -/
def shankKeyBytes : Bytes := (base58Decode shankRegistryId).toOption.getD []

theorem shank_key_eval : pubkeyFromBase58 shankRegistryId = .ok shankKeyBytes := by rfl

/-! ## Claims -/

/-- Claim C2: for the getBalance tool, when the balance collaborator returns
1_000_000_000 lamports for a public key K, dispatching getBalance with K
yields a Result whose content is the single text item
"1 SOL (1000000000 lamports)". -/
theorem claim_C2 (env : Env) (c : Collab) (K : String) (pk : Bytes)
    (hK : pubkeyFromBase58 K = .ok pk)
    (hbal : c.getBalance pk = .ok 1000000000) :
    dispatchStdio env c (.getBalance K) = ⟨[.text "1 SOL (1000000000 lamports)"]⟩ := by
  simp [dispatchStdio, stdioBody, getBalanceBody, hK, hbal, runCatch,
    Bind.bind, Except.bind]
  rfl

/-- Witness for C2 at the system-program key and a mock balance collaborator. -/
theorem claim_C2_witness :
    dispatchStdio envNone c2Collab (.getBalance pk32Str) =
      ⟨[.text "1 SOL (1000000000 lamports)"]⟩ :=
  claim_C2 envNone c2Collab pk32Str zeros32 (by rfl) (by rfl)

/-- Claim C3: for the getTransaction tool, when the transaction-lookup
collaborator throws "not found" for signature S, dispatch returns a Result
with text "Error: not found".  (The embedding returns a ToolResult here by
construction, i.e. no transport-level fault is produced.) -/
theorem claim_C3 (env : Env) (c : Collab) (S : String)
    (h : c.getParsedTransaction S = .error "not found") :
    dispatchStdio env c (.getTransaction S) = ⟨[.text "Error: not found"]⟩ := by
  simp [dispatchStdio, stdioBody, getTransactionBody, h, runCatch, errResult,
    Bind.bind, Except.bind]

/-- Witness for C3 with a throwing mock collaborator. -/
theorem claim_C3_witness :
    dispatchStdio envNone c3Collab (.getTransaction "sig64") =
      ⟨[.text "Error: not found"]⟩ :=
  claim_C3 envNone c3Collab "sig64" (by rfl)

/-- Claim C4: in the event-stream variant, a POST to /messages while no
transport is open yields HTTP 500 with body "SSE transport not initialized",
leaves the state unchanged, and the message has no effect on any future of
the transport (it is not queued, retried, or routed to a later connection). -/
theorem claim_C4 (s : SseState) (msg : String) (h : s.transport = none) :
    (postMessages s msg).1 = .httpError 500 "SSE transport not initialized" ∧
    (postMessages s msg).2 = s ∧
    ∀ evs, sseRun (postMessages s msg).2 evs = sseRun s evs := by
  simp [postMessages, h]

/-- Witness for C4 at the server-start state (no GET /sse yet), with a
subsequent connection and successful post unaffected by the dropped message. -/
theorem claim_C4_witness :
    (postMessages initialSseState "hello").1 =
      .httpError 500 "SSE transport not initialized" ∧
    sseRun (postMessages initialSseState "hello").2 [.get 7, .post "world"] =
      sseRun initialSseState [.get 7, .post "world"] :=
  ⟨(claim_C4 initialSseState "hello" rfl).1,
   (claim_C4 initialSseState "hello" rfl).2.2 [.get 7, .post "world"]⟩

/-- Claim C8: dispatching the read-only getBalance tool twice with identical
input against collaborators giving identical balance answers yields
byte-identical Result content, independently of the environment and of every
other collaborator response. -/
theorem claim_C8 (env env' : Env) (c c' : Collab) (K : String)
    (h : c.getBalance = c'.getBalance) :
    dispatchStdio env c (.getBalance K) = dispatchStdio env' c' (.getBalance K) := by
  simp [dispatchStdio, stdioBody, getBalanceBody, h]

/-- Witness for C8: two dispatches against the same deterministic mock. -/
theorem claim_C8_witness :
    dispatchStdio envNone c2Collab (.getBalance pk32Str) =
      dispatchStdio envAll c2Collab (.getBalance pk32Str) :=
  claim_C8 envNone envAll c2Collab c2Collab pk32Str rfl

/-- Claim C9: every registered prompt taking a signature parameter renders,
for any signature value, to messages whose text contains that value as a
literal substring. -/
theorem claim_C9 (s : String) (p : PromptCall) (hp : p ∈ signaturePrompts s)
    (m : PromptMessage) (hm : m ∈ renderPrompt p) :
    ∃ pre post, m.text = pre ++ s ++ post := by
  simp [signaturePrompts] at hp
  rcases hp with rfl | rfl | rfl
  · simp [renderPrompt] at hm
    subst hm
    exact ⟨"Look up the transaction with signature ",
      " and inspect its logs to figure out why it failed.", rfl⟩
  · simp [renderPrompt] at hm
    subst hm
    exact ⟨"Calculate the network fee for the transaction with signature ",
      " by fetching it and inspecting the \x27fee\x27 field in \x27meta\x27. Base fee is 0.000005 sol per signature (also provided as array at the end). So priority fee is fee - (numSignatures * 0.000005). Please provide the base fee and the priority fee.",
      rfl⟩
  · simp [renderPrompt] at hm
    subst hm
    exact ⟨"Look up the transaction with signature ",
      " and inspect its logs & instructions to figure out what happened.", rfl⟩

/-- Witness for C9 at signature "abc". -/
theorem claim_C9_witness :
    ∃ pre post,
      (PromptMessage.mk "user"
        "Look up the transaction with signature abc and inspect its logs to figure out why it failed.").text
        = pre ++ "abc" ++ post :=
  claim_C9 "abc" (.whyDidMyTransactionFail "abc") (by decide)
    ⟨"user", "Look up the transaction with signature abc and inspect its logs to figure out why it failed."⟩
    (by decide)

/-- Claim C1 (counterexample): the SSE variant's testProgramIdl violates the
claimed "single text item of exactly the form Error: message".  With
PAYER_PRIVATE_KEY set to a non-base58 string (schema-valid input, failure
raised by the bs58 collaborator), its catch block returns three text items
(the error, a heading, and usage help), so the Result is not a single
error item. -/
theorem claim_C1_cex :
    dispatchSse envBadPayer c0 (.testProgramIdl "p" "i" "n") =
      ⟨[.text ("Error: " ++ "Non-base58 character"),
        .text "Expected input JSON structure:",
        .text expectedInputJsonHelp]⟩ ∧
    (dispatchSse envBadPayer c0 (.testProgramIdl "p" "i" "n")).content.length = 3 ∧
    isErrorShaped (dispatchSse envBadPayer c0 (.testProgramIdl "p" "i" "n")) = false :=
  ⟨by rfl, by rfl, by rfl⟩

/-- Claim C1 (amended): whenever a handler body raises, dispatch still
returns a well-formed Result; for every stdio tool, and for every SSE tool
except testProgramIdl, its content is the single text item
`Error: <message>`; the SSE testProgramIdl instead returns three text items
whose first is `Error: <message>`, followed by usage help. -/
theorem claim_C1_amended :
    (∀ env c call m, stdioBody env c call = .error m →
      dispatchStdio env c call = ⟨[.text ("Error: " ++ m)]⟩) ∧
    (∀ env c call m, sseBody env c call = .error m →
      (∀ pid ij iname, call ≠ CallSse.testProgramIdl pid ij iname) →
      dispatchSse env c call = ⟨[.text ("Error: " ++ m)]⟩) ∧
    (∀ env c pid ij iname m,
      sseBody env c (.testProgramIdl pid ij iname) = .error m →
      dispatchSse env c (.testProgramIdl pid ij iname) =
        ⟨[.text ("Error: " ++ m), .text "Expected input JSON structure:",
          .text expectedInputJsonHelp]⟩) := by
  refine ⟨?_, ?_, ?_⟩
  · intro env c call m h
    simp [dispatchStdio, runCatch, h, errResult]
  · intro env c call m h hne
    cases call <;> first
      | exact absurd rfl (hne _ _ _)
      | simp [dispatchSse, runCatch, h, errResult]
  · intro env c pid ij iname m h
    simp [sseBody] at h
    simp [dispatchSse, h]

/-- Witness for the amended C1: a stdio handler failure, an SSE handler
failure outside testProgramIdl, and an SSE testProgramIdl failure. -/
theorem claim_C1_amended_witness :
    dispatchStdio envNone c0 (.getDuneSolanaData "p" 10) =
      ⟨[.text ("Error: " ++ "DUNE_API_KEY is not set in the environment variables")]⟩ ∧
    dispatchSse envNone c0 (.analyzeTransaction "s") =
      ⟨[.text ("Error: " ++ "HELIUS_API_KEY not found in environment variables")]⟩ ∧
    dispatchSse envBadPayer c0 (.testProgramIdl "p" "i" "n") =
      ⟨[.text ("Error: " ++ "Non-base58 character"),
        .text "Expected input JSON structure:",
        .text expectedInputJsonHelp]⟩ :=
  ⟨claim_C1_amended.1 envNone c0 _ _ (by rfl),
   claim_C1_amended.2.1 envNone c0 _ _ (by rfl)
     (fun pid ij iname h => CallSse.noConfusion h),
   claim_C1_amended.2.2 envBadPayer c0 "p" "i" "n" _ (by rfl)⟩

/-- Claim C5: getProgramIdl tries its IDL sources in the fixed order
primary registry fetch (Anchor fetchIdl), derived anchor:idl account,
Shank registry account, returning the first IDL found; a fetchIdl rejection
or null falls through; if no source yields an IDL the tool reports
"No IDL found for the given program ID." instead of an error. -/
theorem claim_C5 (env : Env) (c : Collab) (programId : String) (pk : Bytes)
    (hpk : pubkeyFromBase58 programId = .ok pk) :
    (∀ idl, c.fetchIdl pk = .ok (some idl) →
      dispatchStdio env c (.getProgramIdl programId) =
        ⟨[.text (c.stringifyIdl idl)]⟩) ∧
    (∀ acct idl, (c.fetchIdl pk = .ok none ∨ ∃ e, c.fetchIdl pk = .error e) →
      c.getAccountInfo (c.findProgramAddress "anchor:idl" pk pk) = .ok (some acct) →
      c.parseIdlJson (acct.data.drop 8) = .ok idl →
      dispatchStdio env c (.getProgramIdl programId) =
        ⟨[.text (c.stringifyIdl idl)]⟩) ∧
    (∀ acct idl, (c.fetchIdl pk = .ok none ∨ ∃ e, c.fetchIdl pk = .error e) →
      c.getAccountInfo (c.findProgramAddress "anchor:idl" pk pk) = .ok none →
      c.getAccountInfo (c.findProgramAddress "shank:idl" pk shankKeyBytes) = .ok (some acct) →
      c.parseIdlJson acct.data = .ok idl →
      dispatchStdio env c (.getProgramIdl programId) =
        ⟨[.text (c.stringifyIdl idl)]⟩) ∧
    ((c.fetchIdl pk = .ok none ∨ ∃ e, c.fetchIdl pk = .error e) →
      c.getAccountInfo (c.findProgramAddress "anchor:idl" pk pk) = .ok none →
      c.getAccountInfo (c.findProgramAddress "shank:idl" pk shankKeyBytes) = .ok none →
      dispatchStdio env c (.getProgramIdl programId) =
        ⟨[.text "No IDL found for the given program ID."]⟩) := by
  refine ⟨?_, ?_, ?_, ?_⟩
  · intro idl hf
    simp [dispatchStdio, stdioBody, getProgramIdlBody, hpk, hf, runCatch,
      Bind.bind, Except.bind, Pure.pure, Except.pure]
  · intro acct idl hmiss ha hparse
    rcases hmiss with hf | ⟨e, hf⟩ <;>
      simp [dispatchStdio, stdioBody, getProgramIdlBody, hpk, hf, ha, hparse,
        runCatch, Bind.bind, Except.bind, Pure.pure, Except.pure]
  · intro acct idl hmiss ha hs hparse
    rcases hmiss with hf | ⟨e, hf⟩ <;>
      simp [dispatchStdio, stdioBody, getProgramIdlBody, hpk, hf, ha, hs, hparse,
        shank_key_eval, runCatch, Bind.bind, Except.bind, Pure.pure, Except.pure]
  · intro hmiss ha hs
    rcases hmiss with hf | ⟨e, hf⟩ <;>
      simp [dispatchStdio, stdioBody, getProgramIdlBody, hpk, hf, ha, hs,
        shank_key_eval, runCatch, Bind.bind, Except.bind, Pure.pure, Except.pure]

/-- A collaborator whose primary fetch finds an IDL. -/
def c5Collab : Collab := { c0 with fetchIdl := fun _ => .ok (some ⟨[], none⟩) }

/-- Witness for C5: the not-found fallthrough on the baseline collaborator
and the primary-fetch success on c5Collab. -/
theorem claim_C5_witness :
    dispatchStdio envNone c0 (.getProgramIdl pk32Str) =
      ⟨[.text "No IDL found for the given program ID."]⟩ ∧
    dispatchStdio envNone c5Collab (.getProgramIdl pk32Str) =
      ⟨[.text "IDL-JSON"]⟩ :=
  ⟨(claim_C5 envNone c0 pk32Str zeros32 (by rfl)).2.2.2
      (Or.inl (by rfl)) (by rfl) (by rfl),
   (claim_C5 envNone c5Collab pk32Str zeros32 (by rfl)).1 ⟨[], none⟩ (by rfl)⟩

/-- An IDL whose only instruction declares no accounts and one argument of
a default (passthrough) type. -/
def idl6 : Idl := ⟨[⟨"go", [], [⟨"note", "string"⟩]⟩], none⟩

/-- The literal input JSON `{"accounts":[],"args":[]}` (braces written as
escapes), which really parses to empty accounts/args arrays. -/
def emptyArraysJson : String := "\x7b\"accounts\":[],\"args\":[]\x7d"

/-- Collaborator for the C6 counterexample: an IDL declaring one
passthrough-typed arg; JSON.parse maps the empty-arrays input to empty
lists (and rejects anything else, which no theorem exercises). -/
def c6Collab : Collab :=
  { c0 with
    fetchIdl := fun _ => .ok (some idl6)
    parseInput := fun s =>
      if s = emptyArraysJson then .ok ⟨[], []⟩
      else .error "Unexpected end of JSON input" }

/-- Environment with a (zero-byte) payer key set. -/
def env6 : Env := ⟨none, none, none, some payerSecret58⟩

/-- Claim C6 (counterexample): with an instruction declaring one argument
of default (passthrough) type and an input supplying an empty args array
(lengths disagree, 0 vs 1), the handler does NOT construct and simulate the
instruction: args[0] is undefined (the passthrough branch returns the
missing value as-is), `(args[0] as BN).toArrayLike` throws a TypeError, and
the catch block returns an error Result instead of a simulation Result. -/
theorem claim_C6_cex :
    dispatchStdio env6 c6Collab (.testProgramIdl pk32Str emptyArraysJson "go") =
      ⟨[.text ("Error: " ++ arg0UndefinedMessage)]⟩ ∧
    isSimResult (dispatchStdio env6 c6Collab
      (.testProgramIdl pk32Str emptyArraysJson "go")) = false :=
  ⟨by rfl, by rfl⟩

/-- Claim C6 (amended): testProgramIdl performs no length validation on the
supplied vs declared accounts/args arrays.  (A) Whenever the resolved
argument list starts with a BN — the first declared argument has type
u64/i64, a missing supplied value silently coercing to BN(0) via bn.js's
`number || 0` — that fits 8 bytes, and every other declared argument
resolves, the instruction is constructed and simulated regardless of any
length mismatch, with data exactly the 8-byte discriminator concatenated
with the 8-byte little-endian encoding of that first argument only
(declared arguments after the first never enter the data).  (B) A declared
account missing from the input resolves to the payer public key.  (C) A
declared u64/i64 argument with no supplied value resolves to BN(0).
(D) When the first declared argument has a default (passthrough) type and
no supplied value, `(args[0] as BN).toArrayLike` throws on undefined and
dispatch returns an error Result instead of simulating. -/
theorem claim_C6_amended :
    (∀ (env : Env) (c : Collab) (pid ij iname payer58 : String)
      (secret payerPub pk : Bytes) (idl : Idl) (ix : IdlInstruction)
      (input : InputData) (keys : List KeyMeta) (a0 : Int) (rest : List JsArg)
      (sim : String),
      env.payerPrivateKey = some payer58 →
      base58Decode payer58 = .ok secret →
      c.keypairFromSecret secret = .ok payerPub →
      pubkeyFromBase58 pid = .ok pk →
      c.fetchIdl pk = .ok (some idl) →
      c.parseInput ij = .ok input →
      idl.instructions.find? (fun i => i.name = iname) = some ix →
      resolveKeys payerPub input.accounts ix.accounts = .ok keys →
      resolveArgs input.args ix.args = .ok (JsArg.bn a0 :: rest) →
      a0.natAbs < 2 ^ 64 →
      c.simulateTransaction
        ⟨keys, pk, (c.encodeInstruction iname).take 8 ++ leBytes 8 a0.natAbs⟩
        payerPub = .ok sim →
      dispatchStdio env c (.testProgramIdl pid ij iname) =
        ⟨[.text "Simulation result:", .text sim]⟩) ∧
    (∀ (payerPub : Bytes) (inputAccounts : List InputAccount) (acc : IdlAccountDecl),
      ((inputAccounts.find? fun a => a.name = acc.name).bind fun a => a.pubkey) = none →
      resolveKey payerPub inputAccounts acc =
        .ok ⟨payerPub, acc.isSigner.getD false, acc.isMut.getD false⟩) ∧
    (∀ (inputArgs : List InputArg) (arg : IdlArgDecl),
      (arg.ty = "u64" ∨ arg.ty = "i64") →
      ((inputArgs.find? fun a => a.name = arg.name).bind fun a => a.value) = none →
      resolveArg inputArgs arg = .ok (JsArg.bn 0)) ∧
    (∀ (env : Env) (c : Collab) (pid ij iname payer58 : String)
      (secret payerPub pk : Bytes) (idl : Idl) (ix : IdlInstruction)
      (input : InputData) (keys : List KeyMeta) (rest : List JsArg),
      env.payerPrivateKey = some payer58 →
      base58Decode payer58 = .ok secret →
      c.keypairFromSecret secret = .ok payerPub →
      pubkeyFromBase58 pid = .ok pk →
      c.fetchIdl pk = .ok (some idl) →
      c.parseInput ij = .ok input →
      idl.instructions.find? (fun i => i.name = iname) = some ix →
      resolveKeys payerPub input.accounts ix.accounts = .ok keys →
      resolveArgs input.args ix.args = .ok (JsArg.raw none :: rest) →
      dispatchStdio env c (.testProgramIdl pid ij iname) =
        errResult arg0UndefinedMessage) := by
  refine ⟨?_, ?_, ?_, ?_⟩
  · intro env c pid ij iname payer58 secret payerPub pk idl ix input keys a0 rest sim
      h1 h2 h3 h4 h5 h6 h7 h8 h9 h10 h11
    have h10x : a0.natAbs < 18446744073709551616 := by norm_num at h10; exact h10
    simp [dispatchStdio, stdioBody, testProgramIdlStdioBody, testProgramIdlRest,
      h1, h2, h3, h4, h5, h6, h7, h8, h9, h10x, h11,
      firstArgLeBytes, toArrayLikeLE8, runCatch,
      Bind.bind, Except.bind, Pure.pure, Except.pure]
  · intro payerPub inputAccounts acc h
    simp [resolveKey, h, Bind.bind, Except.bind, Pure.pure, Except.pure]
  · intro inputArgs arg hty h
    rcases hty with hty | hty <;>
      simp [resolveArg, hty, h, bnOfVal, Bind.bind, Except.bind, Pure.pure, Except.pure]
  · intro env c pid ij iname payer58 secret payerPub pk idl ix input keys rest
      h1 h2 h3 h4 h5 h6 h7 h8 h9
    simp [dispatchStdio, stdioBody, testProgramIdlStdioBody, testProgramIdlRest,
      h1, h2, h3, h4, h5, h6, h7, h8, h9,
      firstArgLeBytes, runCatch, errResult,
      Bind.bind, Except.bind, Pure.pure, Except.pure]

/-- IDL for the C6 witness: one declared account, one u64 arg. -/
def idl6w : Idl := ⟨[⟨"go", [⟨"acc1", some true, some false⟩], [⟨"amount", "u64"⟩]⟩], none⟩

/-- Collaborator for the C6 witness, longer-than-declared direction: input
supplies no accounts (0 vs 1 declared, so the payer key is substituted) and
two args (2 vs 1 declared, the extra one ignored). -/
def c6wCollab : Collab :=
  { c0 with
    fetchIdl := fun _ => .ok (some idl6w)
    parseInput := fun _ =>
      .ok ⟨[], [⟨"amount", some (.num 5)⟩, ⟨"extra", some (.str "x")⟩]⟩ }

/-- Collaborator for the C6 witness, shorter-than-declared direction: the
u64 arg and the account are both unsupplied (empty arrays). -/
def c6zCollab : Collab :=
  { c0 with
    fetchIdl := fun _ => .ok (some idl6w)
    parseInput := fun s =>
      if s = emptyArraysJson then .ok ⟨[], []⟩
      else .error "Unexpected end of JSON input" }

set_option maxRecDepth 8000 in
/-- Witness for the amended C6: (A) mismatched lengths in both directions
still simulate — extra supplied args are ignored, and a missing u64 value
coerces to BN(0); (B) the missing account resolves to the payer key;
(C) the BN(0) coercion; (D) a passthrough-typed first argument with no
value yields the error Result. -/
theorem claim_C6_amended_witness :
    dispatchStdio env6 c6wCollab (.testProgramIdl pk32Str "in" "go") =
      ⟨[.text "Simulation result:", .text "SIM"]⟩ ∧
    dispatchStdio env6 c6zCollab (.testProgramIdl pk32Str emptyArraysJson "go") =
      ⟨[.text "Simulation result:", .text "SIM"]⟩ ∧
    resolveKey zeros32 [] ⟨"acc1", some true, some false⟩ =
      .ok ⟨zeros32, true, false⟩ ∧
    resolveArg [] ⟨"amount", "u64"⟩ = .ok (JsArg.bn 0) ∧
    dispatchStdio env6 c6Collab (.testProgramIdl pk32Str emptyArraysJson "go") =
      errResult arg0UndefinedMessage :=
  ⟨claim_C6_amended.1 env6 c6wCollab pk32Str "in" "go" payerSecret58
      (List.replicate 64 0) zeros32 zeros32 idl6w
      ⟨"go", [⟨"acc1", some true, some false⟩], [⟨"amount", "u64"⟩]⟩
      ⟨[], [⟨"amount", some (.num 5)⟩, ⟨"extra", some (.str "x")⟩]⟩
      [⟨zeros32, true, false⟩] 5 [] "SIM"
      (by rfl) (by rfl) (by rfl) (by rfl) (by rfl) (by rfl) (by rfl) (by rfl)
      (by rfl) (by norm_num) (by rfl),
   claim_C6_amended.1 env6 c6zCollab pk32Str emptyArraysJson "go" payerSecret58
      (List.replicate 64 0) zeros32 zeros32 idl6w
      ⟨"go", [⟨"acc1", some true, some false⟩], [⟨"amount", "u64"⟩]⟩
      ⟨[], []⟩
      [⟨zeros32, true, false⟩] 0 [] "SIM"
      (by rfl) (by rfl) (by rfl) (by rfl) (by rfl) (by rfl) (by rfl) (by rfl)
      (by rfl) (by norm_num) (by rfl),
   claim_C6_amended.2.1 zeros32 [] ⟨"acc1", some true, some false⟩ (by rfl),
   claim_C6_amended.2.2.1 [] ⟨"amount", "u64"⟩ (Or.inl rfl) (by rfl),
   claim_C6_amended.2.2.2 env6 c6Collab pk32Str emptyArraysJson "go" payerSecret58
      (List.replicate 64 0) zeros32 zeros32 idl6
      ⟨"go", [], [⟨"note", "string"⟩]⟩
      ⟨[], []⟩ [] []
      (by rfl) (by rfl) (by rfl) (by rfl) (by rfl) (by rfl) (by rfl) (by rfl)
      (by rfl)⟩

/-- Claim C7 (counterexample): the SSE testProgramIdl with
PAYER_PRIVATE_KEY absent returns the Result
"No IDL found for the given program ID.", which is not an error Result,
refuting the claim that every credential check yields an error Result. -/
theorem claim_C7_cex :
    dispatchSse envNone c0 (.testProgramIdl "p" "i" "n") =
      ⟨[.text "No IDL found for the given program ID."]⟩ ∧
    isErrorShaped (dispatchSse envNone c0 (.testProgramIdl "p" "i" "n")) = false :=
  ⟨by rfl, by rfl⟩

/-- Claim C7 (amended): when a required credential is absent, each
credentialed tool returns, from a handler-local check and before (and
independent of) any collaborator call, a fixed Result: an error Result
naming the missing variable for getPriorityFee (both variants),
getDuneSolanaData, analyzeTransaction, buildTransaction and the stdio
testProgramIdl — but the misleading text "No IDL found for the given
program ID." for the SSE testProgramIdl.  Tools not using credentials
(e.g. getBalance) are unaffected by the environment.  (Credentials are read
inside handlers, so registration and startup never depend on them.) -/
theorem claim_C7_amended :
    (∀ env (c : Collab) tx, env.heliusRpcUrl = none →
      dispatchStdio env c (.getPriorityFee tx) =
        errResult "HELIUS_RPC_URL environment variable is not set") ∧
    (∀ env (c : Collab) pid days, env.duneApiKey = none →
      dispatchStdio env c (.getDuneSolanaData pid days) =
        errResult "DUNE_API_KEY is not set in the environment variables") ∧
    (∀ env (c : Collab) pid ij iname, env.payerPrivateKey = none →
      dispatchStdio env c (.testProgramIdl pid ij iname) =
        errResult "PAYER_PRIVATE_KEY not found in environment variables") ∧
    (∀ env (c : Collab) tx, env.heliusApiKey = none →
      dispatchSse env c (.getPriorityFee tx) =
        ⟨[.text "Error: HELIUS_API_KEY environment variable is not set"]⟩) ∧
    (∀ env (c : Collab) sig, env.heliusApiKey = none →
      dispatchSse env c (.analyzeTransaction sig) =
        errResult "HELIUS_API_KEY not found in environment variables") ∧
    (∀ env (c : Collab) ixs bh, env.payerPrivateKey = none →
      dispatchSse env c (.buildTransaction ixs bh) =
        errResult "PAYER_PRIVATE_KEY not found in environment variables") ∧
    (∀ env (c : Collab) pid ij iname, env.payerPrivateKey = none →
      dispatchSse env c (.testProgramIdl pid ij iname) =
        ⟨[.text "No IDL found for the given program ID."]⟩) ∧
    (∀ env env' (c : Collab) pk,
      dispatchStdio env c (.getBalance pk) = dispatchStdio env' c (.getBalance pk)) := by
  refine ⟨?_, ?_, ?_, ?_, ?_, ?_, ?_, ?_⟩
  · intro env c tx h
    simp [dispatchStdio, stdioBody, getPriorityFeeBody, h, runCatch, errResult]
  · intro env c pid days h
    simp [dispatchStdio, stdioBody, getDuneSolanaDataBody, h, runCatch, errResult]
  · intro env c pid ij iname h
    simp [dispatchStdio, stdioBody, testProgramIdlStdioBody, h, runCatch, errResult]
  · intro env c tx h
    simp [dispatchSse, sseBody, getPriorityFeeSseBody, h, runCatch,
      Pure.pure, Except.pure]
  · intro env c sig h
    simp [dispatchSse, sseBody, analyzeTransactionBody, h, runCatch, errResult]
  · intro env c ixs bh h
    simp [dispatchSse, sseBody, buildTransactionBody, h, runCatch, errResult]
  · intro env c pid ij iname h
    simp [dispatchSse, testProgramIdlSseBody, h, Pure.pure, Except.pure]
  · intro env env' c pk
    rfl

/-- Witness for the amended C7: concrete dispatches with missing
credentials, plus environment-independence of getBalance. -/
theorem claim_C7_amended_witness :
    dispatchStdio envNone c0 (.getPriorityFee "tx") =
      errResult "HELIUS_RPC_URL environment variable is not set" ∧
    dispatchStdio envNone c0 (.testProgramIdl "p" "i" "n") =
      errResult "PAYER_PRIVATE_KEY not found in environment variables" ∧
    dispatchSse envNone c0 (.testProgramIdl "p" "i" "n") =
      ⟨[.text "No IDL found for the given program ID."]⟩ ∧
    dispatchStdio envNone c2Collab (.getBalance pk32Str) =
      dispatchStdio envAll c2Collab (.getBalance pk32Str) :=
  ⟨claim_C7_amended.1 envNone c0 "tx" rfl,
   claim_C7_amended.2.2.1 envNone c0 "p" "i" "n" rfl,
   claim_C7_amended.2.2.2.2.2.2.1 envNone c0 "p" "i" "n" rfl,
   claim_C7_amended.2.2.2.2.2.2.2 envNone envAll c2Collab pk32Str⟩

/-- The program account handed out by the C10 collaborator: 4 padding bytes
then the program-data address (32 bytes of 1). -/
def c10Data1 : Bytes := [0, 0, 0, 0] ++ List.replicate 32 1

/-- Account oracle for the C10 counterexample: the program account points
at the program-data account, whose data is the 45 distinct bytes 0..44. -/
def c10Accounts (b : Bytes) : Except String (Option AccountInfo) :=
  if b = zeros32 then Except.ok (some ⟨c10Data1, zeros32⟩)
  else if b = List.replicate 32 1 then Except.ok (some ⟨List.range 45, zeros32⟩)
  else Except.ok none

def c10Collab : Collab := { c0 with getAccountInfo := c10Accounts }

/-- Claim C10 (counterexample): on identical collaborator responses the two
lookupProgramAuth variants return different Results — the stdio variant
reads the authority from bytes [0,32) of the program-data account, the SSE
variant from bytes [13,45). -/
theorem claim_C10_cex :
    dispatchStdio envNone c10Collab (.lookupProgramAuth pk32Str) =
      ⟨[.text "Program Authority: 1thX6LZfHDZZKUs92febYZhYRcXddmzfzF2NvTkPNE"]⟩ ∧
    dispatchSse envNone c10Collab (.lookupProgramAuth pk32Str) =
      ⟨[.text "Program Authority: sxjZS9UFY9ANja5Y2GcRyaUscAEHTZSFyemnKWFTiZR"]⟩ ∧
    dispatchStdio envNone c10Collab (.lookupProgramAuth pk32Str) ≠
      dispatchSse envNone c10Collab (.lookupProgramAuth pk32Str) := by
  have e1 : dispatchStdio envNone c10Collab (.lookupProgramAuth pk32Str) =
      ⟨[.text "Program Authority: 1thX6LZfHDZZKUs92febYZhYRcXddmzfzF2NvTkPNE"]⟩ := by rfl
  have e2 : dispatchSse envNone c10Collab (.lookupProgramAuth pk32Str) =
      ⟨[.text "Program Authority: sxjZS9UFY9ANja5Y2GcRyaUscAEHTZSFyemnKWFTiZR"]⟩ := by rfl
  refine ⟨e1, e2, ?_⟩
  rw [e1, e2]
  decide

/-- Claim C10 (amended): the two lookupProgramAuth variants agree on the
program-data account address (bytes [4,36) of the program account) but NOT
on the rest: when the program account is missing the stdio variant throws
"Program not found" (caught into an error Result) while the SSE variant
returns "Error: Program with ID <id> not found." directly; when both
accounts exist the stdio variant reports the key at bytes [0,32) of the
program-data account and the SSE variant the key at bytes [13,45). -/
theorem claim_C10_amended (env : Env) (c : Collab) (pid : String) (pk : Bytes)
    (hpk : pubkeyFromBase58 pid = .ok pk) :
    (c.getAccountInfo pk = .ok none →
      dispatchStdio env c (.lookupProgramAuth pid) = errResult "Program not found" ∧
      dispatchSse env c (.lookupProgramAuth pid) =
        ⟨[.text ("Error: Program with ID " ++ pid ++ " not found.")]⟩) ∧
    (∀ pi pd, c.getAccountInfo pk = .ok (some pi) →
      pi.data.length ≥ 36 →
      c.getAccountInfo ((pi.data.drop 4).take 32) = .ok (some pd) →
      pd.data.length ≥ 45 →
      dispatchStdio env c (.lookupProgramAuth pid) =
        ⟨[.text ("Program Authority: " ++ base58Encode (pd.data.take 32))]⟩ ∧
      dispatchSse env c (.lookupProgramAuth pid) =
        ⟨[.text ("Program Authority: " ++ base58Encode ((pd.data.drop 13).take 32))]⟩) := by
  constructor
  · intro h
    constructor
    · simp [dispatchStdio, stdioBody, lookupProgramAuthStdioBody, hpk, h,
        runCatch, errResult, Bind.bind, Except.bind, Pure.pure, Except.pure]
    · simp [dispatchSse, sseBody, lookupProgramAuthSseBody, hpk, h,
        runCatch, Bind.bind, Except.bind, Pure.pure, Except.pure]
  · intro pi pd hpi hlen1 hpd hlen2
    have l1 : ((pi.data.drop 4).take 32).length = 32 := by
      simp [List.length_take, List.length_drop]
      omega
    have l2 : (pd.data.take 32).length = 32 := by
      simp [List.length_take]
      omega
    have l3 : ((pd.data.drop 13).take 32).length = 32 := by
      simp [List.length_take, List.length_drop]
      omega
    constructor
    · simp [dispatchStdio, stdioBody, lookupProgramAuthStdioBody, hpk, hpi, hpd,
        pubkeyFromBytes, l1, l2, runCatch,
        Bind.bind, Except.bind, Pure.pure, Except.pure]
    · simp [dispatchSse, sseBody, lookupProgramAuthSseBody, hpk, hpi, hpd,
        pubkeyFromBytes, l1, l3, runCatch,
        Bind.bind, Except.bind, Pure.pure, Except.pure]

/-- Witness for the amended C10 on the concrete collaborator: both the
missing-program clause (baseline collaborator) and the two byte ranges. -/
theorem claim_C10_amended_witness :
    (dispatchStdio envNone c0 (.lookupProgramAuth pk32Str) =
        errResult "Program not found" ∧
      dispatchSse envNone c0 (.lookupProgramAuth pk32Str) =
        ⟨[.text ("Error: Program with ID " ++ pk32Str ++ " not found.")]⟩) ∧
    (dispatchStdio envNone c10Collab (.lookupProgramAuth pk32Str) =
        ⟨[.text ("Program Authority: " ++ base58Encode ((List.range 45).take 32))]⟩ ∧
      dispatchSse envNone c10Collab (.lookupProgramAuth pk32Str) =
        ⟨[.text ("Program Authority: " ++ base58Encode (((List.range 45).drop 13).take 32))]⟩) :=
  ⟨(claim_C10_amended envNone c0 pk32Str zeros32 (by rfl)).1 (by rfl),
   (claim_C10_amended envNone c10Collab pk32Str zeros32 (by rfl)).2
      ⟨c10Data1, zeros32⟩ ⟨List.range 45, zeros32⟩ (by rfl) (by decide) (by rfl) (by decide)⟩

end SolanaMcp
